import Mathlib

set_option maxRecDepth 20000

/-! Shallow embedding of the channel-polling scheduler core of this
repository: the candidate finder, relative-time parser, resilient fetch
pipeline and transcript retriever of `youtube_utils.py`, and the channel
state machine, time-window dispatcher and simulation entry point of
`scheduler.py`.  External collaborators (the record store, the HTTP
transport, the transcript provider) are passed in as explicit oracle
parameters, and effects (sleeps, store reads/writes, network calls) are
returned as explicit traces. -/

/-! ## JSON payload model

The parsed `ytInitialData` structures walked by `find_videos_with_keyword`
are modelled as JSON-like values.  Objects are association lists; key
lookup returns the first binding, which coincides with Python dict access
on well-formed (duplicate-free) dictionaries. -/

inductive Json where
  | str (s : String)
  | num (n : Int)
  | bool (b : Bool)
  | null
  | arr (items : List Json)
  | obj (fields : List (String × Json))

def lookupField : List (String × Json) → String → Option Json
  | [], _ => none
  | (k, v) :: rest, key => if k = key then some v else lookupField rest key

def Json.getKey : Json → String → Option Json
  | .obj fields, key => lookupField fields key
  | _, _ => none

/-- Elements of a JSON array.  Iterating anything else yields nothing: in
the source, iterating a non-list raises inside the extraction `try` block,
which returns the candidates collected so far (none at that point). -/
def Json.elems : Json → List Json
  | .arr items => items
  | _ => []

def Json.strVal : Json → Option String
  | .str s => some s
  | _ => none

/-- Python's `d.get(key, default)` for string-valued fields.  A present but
non-string value is mapped to the default (in the source such an ill-typed
payload would abort extraction through the surrounding `except`). -/
def getStrD (j : Json) (key : String) (dflt : String) : String :=
  match j.getKey key with
  | some v => v.strVal.getD dflt
  | none => dflt

/-! ## String helpers (Python `in`, `startswith`, `lower`) -/

def charsMatchAt : List Char → List Char → Bool
  | [], _ => true
  | _ :: _, [] => false
  | a :: as, b :: bs => a == b && charsMatchAt as bs

def charsHaveSub (sub : List Char) : List Char → Bool
  | [] => sub.isEmpty
  | c :: rest => charsMatchAt sub (c :: rest) || charsHaveSub sub rest

/-- Python's substring test `sub in s`. -/
def strHasSub (s sub : String) : Bool := charsHaveSub sub.data s.data

/-- Python's `s.startswith(p)`. -/
def strStartsWith (s p : String) : Bool := charsMatchAt p.data s.data

def asciiLowerChar (c : Char) : Char :=
  if 'A' ≤ c ∧ c ≤ 'Z' then Char.ofNat (c.toNat + 32) else c

/-- Python's `str.lower()` restricted to ASCII letters (the locales used by
the source — Korean and ASCII — are unaffected by the difference). -/
def asciiLower (s : String) : String := ⟨s.data.map asciiLowerChar⟩

/-! ## Content candidates (`youtube_utils.find_videos_with_keyword`) -/

structure Video where
  title : String
  url : String
  video_id : String
  upload_date : String
  is_upcoming : Bool
  is_live : Bool
  video_length : String
deriving DecidableEq

/-- Title extraction: concatenate `run.get("text", "")` over `title.runs`
(empty when `title` or `runs` is absent). -/
def extractTitle (vr : Json) : String :=
  match vr.getKey "title" with
  | some t =>
    match t.getKey "runs" with
    | some runs => (runs.elems.map (fun run => getStrD run "text" "")).foldl (· ++ ·) ""
    | none => ""
  | none => ""

/-- One `thumbnailOverlays` element: `style == "UPCOMING"` sets the first
flag, else `style == "LIVE"` sets the second flag. -/
def overlayStep (fl : Bool × Bool) (overlay : Json) : Bool × Bool :=
  match overlay.getKey "thumbnailOverlayTimeStatusRenderer" with
  | some sr =>
    match sr.getKey "style" with
    | some (.str st) =>
      if st = "UPCOMING" then (true, fl.2)
      else if st = "LIVE" then (fl.1, true)
      else fl
    | some _ => fl
    | none => fl
  | none => fl

def applyOverlays (vr : Json) (fl : Bool × Bool) : Bool × Bool :=
  match vr.getKey "thumbnailOverlays" with
  | some ovs => ovs.elems.foldl overlayStep fl
  | none => fl

/-- One `badges` element: a `metadataBadgeRenderer` whose `style` equals
`"BADGE_STYLE_TYPE_LIVE_NOW"` sets the live flag. -/
def badgeStep (live : Bool) (badge : Json) : Bool :=
  match badge.getKey "metadataBadgeRenderer" with
  | some br =>
    match br.getKey "style" with
    | some (.str st) => if st = "BADGE_STYLE_TYPE_LIVE_NOW" then true else live
    | some _ => live
    | none => live
  | none => live

def applyBadges (vr : Json) (live : Bool) : Bool :=
  match vr.getKey "badges" with
  | some bs => bs.elems.foldl badgeStep live
  | none => live

def extractUploadDate (vr : Json) : String :=
  match vr.getKey "publishedTimeText" with
  | some ptt => getStrD ptt "simpleText" ""
  | none => ""

def extractLength (vr : Json) : String :=
  match vr.getKey "lengthText" with
  | some lt =>
    match lt.getKey "simpleText" with
    | some v => v.strVal.getD "Unknown"
    | none => "Unknown"
  | none => "Unknown"

/-- The case-insensitive keyword check `keyword.lower() in title.lower()`. -/
def keywordHit (keyword title : String) : Bool :=
  strHasSub (asciiLower title) (asciiLower keyword)

/-- The `gridVideoRenderer` extraction block (live/upcoming flags come from
thumbnail overlays only). -/
def extractGridVideo (keyword : String) (vr : Json) : Option Video :=
  let title := extractTitle vr
  if keywordHit keyword title then
    let vid := getStrD vr "videoId" ""
    let fl := applyOverlays vr (false, false)
    some { title := title, url := "https://www.youtube.com/watch?v=" ++ vid,
           video_id := vid, upload_date := extractUploadDate vr,
           is_upcoming := fl.1, is_live := fl.2, video_length := extractLength vr }
  else none

/-- The `videoRenderer` extraction block (badges are examined first, then
thumbnail overlays). -/
def extractVideoRenderer (keyword : String) (vr : Json) : Option Video :=
  let title := extractTitle vr
  if keywordHit keyword title then
    let vid := getStrD vr "videoId" ""
    let live0 := applyBadges vr false
    let fl := applyOverlays vr (false, live0)
    some { title := title, url := "https://www.youtube.com/watch?v=" ++ vid,
           video_id := vid, upload_date := extractUploadDate vr,
           is_upcoming := fl.1, is_live := fl.2, video_length := extractLength vr }
  else none

/-- One element of an `itemSectionRenderer`'s `contents`: a `gridRenderer`
is walked for `gridVideoRenderer` items, else a direct `videoRenderer` is
extracted. -/
def processContentItem (keyword : String) (ci : Json) : List Video :=
  match ci.getKey "gridRenderer" with
  | some gr =>
    (((gr.getKey "items").getD (.arr [])).elems).flatMap (fun item =>
      match item.getKey "gridVideoRenderer" with
      | some vr => (extractGridVideo keyword vr).toList
      | none => [])
  | none =>
    match ci.getKey "videoRenderer" with
    | some vr => (extractVideoRenderer keyword vr).toList
    | none => []

def processSection (keyword : String) (sec : Json) : List Video :=
  match sec.getKey "itemSectionRenderer" with
  | some isr => (((isr.getKey "contents").getD (.arr [])).elems).flatMap (processContentItem keyword)
  | none => []

def processRichItem (keyword : String) (item : Json) : List Video :=
  match item.getKey "richItemRenderer" with
  | some rir =>
    match rir.getKey "content" with
    | some ci =>
      match ci.getKey "videoRenderer" with
      | some vr => (extractVideoRenderer keyword vr).toList
      | none => []
    | none => []
  | none => []

/-- One tab: its `content` is dispatched on the `sectionListRenderer` key
first, `elif` on the `richGridRenderer` key. -/
def processTab (keyword : String) (tab : Json) : List Video :=
  match tab.getKey "tabRenderer" with
  | none => []
  | some tr =>
    let content := (tr.getKey "content").getD (.obj [])
    match content.getKey "sectionListRenderer" with
    | some slr => (((slr.getKey "contents").getD (.arr [])).elems).flatMap (processSection keyword)
    | none =>
      match content.getKey "richGridRenderer" with
      | some rgr => (((rgr.getKey "contents").getD (.arr [])).elems).flatMap (processRichItem keyword)
      | none => []

/-- Sort key of `videos.sort`: `-1 if is_live else (1 if is_upcoming else 0)`. -/
def sortKey (v : Video) : Int :=
  if v.is_live then -1 else if v.is_upcoming then 1 else 0

def videoLE (a b : Video) : Bool := sortKey a ≤ sortKey b

def insertStable {α : Type} (le : α → α → Bool) (x : α) : List α → List α
  | [] => [x]
  | y :: ys => if le x y then x :: y :: ys else y :: insertStable le x ys

/-- Stable insertion sort, modelling CPython's stable `list.sort(key=...)`
(any two stable sorts over a total preorder agree extensionally). -/
def sortStable {α : Type} (le : α → α → Bool) : List α → List α
  | [] => []
  | x :: xs => insertStable le x (sortStable le xs)

def sortVideos (vs : List Video) : List Video := sortStable videoLE vs

/-- `find_videos_with_keyword(data, keyword)`: locate the tab renderers
(two-column layout, `elif` a top-level section list gets wrapped into a
synthetic tab), walk each tab, and stable-sort the collected candidates. -/
def find_videos_with_keyword (data : Json) (keyword : String) : List Video :=
  let tabRenderers : List Json :=
    match data.getKey "contents" with
    | none => []
    | some contents =>
      match contents.getKey "twoColumnBrowseResultsRenderer" with
      | some tcbr =>
        match tcbr.getKey "tabs" with
        | some tabs => tabs.elems
        | none => []
      | none =>
        match contents.getKey "sectionListRenderer" with
        | some slr =>
          if (slr.getKey "contents").isSome then
            [Json.obj [("tabRenderer", Json.obj [("content", slr)])]]
          else []
        | none => []
  if tabRenderers.isEmpty then []
  else sortVideos (tabRenderers.flatMap (processTab keyword))

/-! ## Relative-time parser (`youtube_utils.parse_upload_date`)

The returned `datetime` is modelled relative to the captured `now`:
`nowMinus m` is `now - timedelta(minutes=m)` (with `nowMinus 0` standing
for the plain "now" fallback), and `ymd y m d` is `datetime(y, m, d)`. -/

inductive PyDatetime where
  | nowMinus (minutes : Int)
  | ymd (y m d : Nat)
deriving DecidableEq

def digitVal (c : Char) : Nat := c.toNat - 48

def takeDigitsRun : List Char → Nat → Nat
  | c :: rest, acc => if c.isDigit then takeDigitsRun rest (acc * 10 + digitVal c) else acc
  | [], acc => acc

def firstNatChars : List Char → Option Nat
  | [] => none
  | c :: rest => if c.isDigit then some (takeDigitsRun rest (digitVal c)) else firstNatChars rest

/-- `re.search(r'(\d+)', s)`: the first maximal digit run, as a number. -/
def firstNat (s : String) : Option Nat := firstNatChars s.data

def isPySpace (c : Char) : Bool :=
  c = ' ' || c = '\t' || c = '\n' || c = '\r' || c = '\x0b' || c = '\x0c'

/-- Greedy `\d{1,2}` immediately followed by `marker`, with the regex
backtracking from two digits to one. -/
def digits2Then (marker : Char) : List Char → Option (Nat × List Char)
  | a :: b :: c :: rest =>
    if a.isDigit && b.isDigit && c == marker then some (digitVal a * 10 + digitVal b, rest)
    else if a.isDigit && b == marker then some (digitVal a, c :: rest)
    else none
  | [a, b] =>
    if a.isDigit && b == marker then some (digitVal a, []) else none
  | _ => none

/-- Match `(\d{4})년\s*(\d{1,2})월\s*(\d{1,2})일` anchored at the start of
the character list. -/
def matchKDateAt : List Char → Option (Nat × Nat × Nat)
  | a :: b :: c :: d :: e :: rest =>
    if a.isDigit && b.isDigit && c.isDigit && d.isDigit && e == '년' then
      let year := ((digitVal a * 10 + digitVal b) * 10 + digitVal c) * 10 + digitVal d
      match digits2Then '월' (rest.dropWhile isPySpace) with
      | some (month, rest3) =>
        match digits2Then '일' (rest3.dropWhile isPySpace) with
        | some (day, _) => some (year, month, day)
        | none => none
      | none => none
    else none
  | _ => none

/-- `re.search` for the Korean absolute-date pattern: leftmost match. -/
def searchKDate : List Char → Option (Nat × Nat × Nat)
  | [] => none
  | c :: rest =>
    match matchKDateAt (c :: rest) with
    | some r => some r
    | none => searchKDate rest

def isAsciiLetter (c : Char) : Bool := ('A' ≤ c && c ≤ 'Z') || ('a' ≤ c && c ≤ 'z')

def fourDigitsHere : List Char → Option Nat
  | a :: b :: c :: d :: _ =>
    if a.isDigit && b.isDigit && c.isDigit && d.isDigit then
      some (((digitVal a * 10 + digitVal b) * 10 + digitVal c) * 10 + digitVal d)
    else none
  | _ => none

/-- The `,?\s*(\d{4})` tail of the English date pattern. -/
def engTail (rest : List Char) : Option Nat :=
  match rest with
  | ',' :: r => fourDigitsHere (r.dropWhile isPySpace)
  | r => fourDigitsHere (r.dropWhile isPySpace)

/-- Match `([A-Za-z]{3})\s*(\d{1,2}),?\s*(\d{4})` anchored at the start of
the character list (greedy day with backtracking). -/
def matchEngDateAt : List Char → Option (String × Nat × Nat)
  | a :: b :: c :: rest =>
    if isAsciiLetter a && isAsciiLetter b && isAsciiLetter c then
      match rest.dropWhile isPySpace with
      | d1 :: d2 :: rest3 =>
        if d1.isDigit && d2.isDigit then
          match engTail rest3 with
          | some year => some (⟨[a, b, c]⟩, digitVal d1 * 10 + digitVal d2, year)
          | none =>
            match engTail (d2 :: rest3) with
            | some year => some (⟨[a, b, c]⟩, digitVal d1, year)
            | none => none
        else if d1.isDigit then
          match engTail (d2 :: rest3) with
          | some year => some (⟨[a, b, c]⟩, digitVal d1, year)
          | none => none
        else none
      | [d1] =>
        if d1.isDigit then
          match engTail [] with
          | some year => some (⟨[a, b, c]⟩, digitVal d1, year)
          | none => none
        else none
      | [] => none
    else none
  | _ => none

/-- `re.search` for the English absolute-date pattern: leftmost match. -/
def searchEngDate : List Char → Option (String × Nat × Nat)
  | [] => none
  | c :: rest =>
    match matchEngDateAt (c :: rest) with
    | some r => some r
    | none => searchEngDate rest

/-- `month_dict.get(month_str, 1)`. -/
def monthOf (s : String) : Nat :=
  if s = "Jan" then 1 else if s = "Feb" then 2 else if s = "Mar" then 3
  else if s = "Apr" then 4 else if s = "May" then 5 else if s = "Jun" then 6
  else if s = "Jul" then 7 else if s = "Aug" then 8 else if s = "Sep" then 9
  else if s = "Oct" then 10 else if s = "Nov" then 11 else if s = "Dec" then 12
  else 1

def isLeapYear (y : Nat) : Bool := y % 4 = 0 && (y % 100 ≠ 0 || y % 400 = 0)

def daysInMonth (y m : Nat) : Nat :=
  if m = 2 then (if isLeapYear y then 29 else 28)
  else if m = 4 || m = 6 || m = 9 || m = 11 then 30
  else 31

/-- `datetime(year, month, day)` raises `ValueError` outside these bounds;
the caller's `except` then turns that into the "now" fallback. -/
def validYMD (y m d : Nat) : Bool :=
  1 ≤ y && y ≤ 9999 && 1 ≤ m && m ≤ 12 && 1 ≤ d && d ≤ daysInMonth y m

/-- `parse_upload_date(upload_time_text)`.  Total by construction: every
branch of the source either returns a value or raises into the enclosing
`except`, which returns "now" (`nowMinus 0`). -/
def parse_upload_date (s : String) : PyDatetime :=
  if s = "" then .nowMinus 0
  else
    match firstNat s with
    | none => .nowMinus 0
    | some v =>
      if strHasSub s "분 전" || strHasSub s "minutes ago" then .nowMinus v
      else if strHasSub s "시간 전" || strHasSub s "hours ago" then .nowMinus (60 * v)
      else if strHasSub s "일 전" || strHasSub s "days ago" then .nowMinus (1440 * v)
      else if strHasSub s "주 전" || strHasSub s "weeks ago" then .nowMinus (10080 * v)
      else if strHasSub s "개월 전" || strHasSub s "months ago" then .nowMinus (1440 * (30 * v))
      else if strHasSub s "년 전" || strHasSub s "years ago" then .nowMinus (1440 * (365 * v))
      else
        match searchKDate s.data with
        | some (y, m, d) => if validYMD y m d then .ymd y m d else .nowMinus 0
        | none =>
          match searchEngDate s.data with
          | some (mon, d, y) =>
            if validYMD y (monthOf mon) d then .ymd y (monthOf mon) d else .nowMinus 0
          | none => .nowMinus 0

/-! ## Resilient fetch pipeline (`youtube_utils.process_channel_url`)

One loop iteration's interaction with the transport/extractor is an
oracle value: a timeout, an HTTP status error, any other exception, or a
response whose `extract_initial_data` result is empty (`response none`)
or a parsed payload (`response (some data)`).  The pipeline returns the
selected candidate together with the ordered list of back-off sleeps (in
seconds).  The loop is driven by the remaining-iteration count (`fuel`),
which at the entry point equals `max_retries` with `attempt = 0`. -/

inductive FetchAttempt where
  | timeout
  | httpError
  | otherError
  | response (data : Option Json)

def pipelineGo (keyword : String) (maxRetries : Nat) (env : Nat → FetchAttempt) :
    Nat → Nat → Option Video × List Nat
  | 0, _ => (none, [])
  | fuel + 1, attempt =>
    match env attempt with
    | .timeout =>
      if attempt < maxRetries - 1 then
        let r := pipelineGo keyword maxRetries env fuel (attempt + 1)
        (r.1, 2 ^ attempt :: r.2)
      else (none, [])
    | .httpError =>
      if attempt < maxRetries - 1 then
        let r := pipelineGo keyword maxRetries env fuel (attempt + 1)
        (r.1, 2 ^ attempt :: r.2)
      else (none, [])
    | .otherError =>
      if attempt < maxRetries - 1 then
        let r := pipelineGo keyword maxRetries env fuel (attempt + 1)
        (r.1, 2 ^ attempt :: r.2)
      else (none, [])
    | .response none =>
      if attempt < maxRetries - 1 then
        let r := pipelineGo keyword maxRetries env fuel (attempt + 1)
        (r.1, 2 ^ attempt :: r.2)
      else (none, [])
    | .response (some data) =>
      let videos := find_videos_with_keyword data keyword
      if videos.isEmpty then (none, [])
      else
        let normalVideos := videos.filter (fun v => !v.is_live && !v.is_upcoming)
        if normalVideos.isEmpty then (none, [])
        else (normalVideos.head?, [])

def process_channel_url (keyword : String) (maxRetries : Nat) (env : Nat → FetchAttempt) :
    Option Video × List Nat :=
  pipelineGo keyword maxRetries env maxRetries 0

/-! ## Transcript retriever (`youtube_utils.get_video_transcript`)

Each attempt's interaction with the provider is an oracle value: the
Korean fetch succeeds with a list of entry texts, or it fails and the
auto-detected fetch succeeds, or both fail with their error messages.
The run returns the result string, the ordered back-off sleeps, and the
ordered trace of provider calls. -/

inductive TCall where
  | ko (attempt : Nat)
  | auto (attempt : Nat)
deriving DecidableEq

inductive TAttempt where
  | koOk (texts : List String)
  | koFailAutoOk (err : String) (texts : List String)
  | bothFail (err1 err2 : String)

def joinTexts (texts : List String) : String := String.intercalate " " texts

def transcriptGo (maxRetries : Nat) (env : Nat → TAttempt) :
    Nat → Nat → String × List Nat × List TCall
  | 0, _ => ("스크립트를 가져올 수 없습니다: 최대 재시도 횟수 초과", [], [])
  | fuel + 1, attempt =>
    match env attempt with
    | .koOk texts => (joinTexts texts, [], [.ko attempt])
    | .koFailAutoOk _ texts => (joinTexts texts, [], [.ko attempt, .auto attempt])
    | .bothFail _ err2 =>
      if attempt < maxRetries - 1 then
        let r := transcriptGo maxRetries env fuel (attempt + 1)
        (r.1, 2 ^ attempt :: r.2.1, .ko attempt :: .auto attempt :: r.2.2)
      else ("스크립트를 가져올 수 없습니다: " ++ err2, [], [.ko attempt, .auto attempt])

def get_video_transcript (maxRetries : Nat) (env : Nat → TAttempt) :
    String × List Nat × List TCall :=
  transcriptGo maxRetries env maxRetries 0

/-! ## Channel state machine (`scheduler.process_channel`)

The Notion reference page is abstracted as the property values the
function reads (defaults already applied as the source applies them);
collaborator behaviour is an oracle, and effects are reported in the
outcome record: whether the page's active flag was set to false
(`update_notion_page`), whether `create_script_report_page` was invoked,
and whether `get_video_transcript` was invoked. -/

structure ChannelPage where
  active : Bool
  keyword : String
  channelUrl : String
  channelName : String
deriving DecidableEq

structure ChannelEnv where
  fetchResult : Option Video
  scriptExists : String → Bool
  transcript : String → String
  createOk : Bool

structure ProcessOutcome where
  success : Bool
  deactivateCalled : Bool
  createCalled : Bool
  transcriptCalled : Bool
deriving DecidableEq

def noEffect : ProcessOutcome :=
  { success := false, deactivateCalled := false, createCalled := false, transcriptCalled := false }

def process_channel (env : ChannelEnv) (page : ChannelPage) : ProcessOutcome :=
  if !page.active then noEffect
  else if page.channelUrl = "" ∨ page.keyword = "" then noEffect
  else if !strHasSub page.channelUrl "youtube.com/@" then noEffect
  else
    match env.fetchResult with
    | none => noEffect
    | some v =>
      if v.is_upcoming || v.is_live then noEffect
      else if env.scriptExists v.url then
        { success := true, deactivateCalled := true, createCalled := false,
          transcriptCalled := false }
      else
        let script := env.transcript v.video_id
        if !script.isEmpty && !strStartsWith script "스크립트를 가져올 수 없습니다" then
          if env.createOk then
            { success := true, deactivateCalled := true, createCalled := true,
              transcriptCalled := true }
          else
            { success := false, deactivateCalled := false, createCalled := true,
              transcriptCalled := true }
        else
          { success := false, deactivateCalled := false, createCalled := false,
            transcriptCalled := true }

/-! ## Time-window dispatcher (`scheduler.process_channels_by_time`)

A reference page is abstracted as the property values the dispatcher
reads.  `timeProp = none` models a missing "시간" property, a missing
`number` key, or a `null` number (all three take the source's default-9
path).  The outcome records the selected due pages (in store order) and
whether the reference database was queried at all. -/

structure RefPage where
  active : Bool
  timeProp : Option Int
  channelName : String
  keyword : String
deriving DecidableEq

def should_process (uploadTime targetHour : Int) : Bool :=
  if uploadTime < 12 then ([9, 10, 11] : List Int).contains targetHour
  else if uploadTime < 20 then
    ([uploadTime + 2, uploadTime + 3, uploadTime + 4] : List Int).contains targetHour
  else ([22, 23, 0, 1, 2, 3] : List Int).contains targetHour

def channel_should_process (p : RefPage) (targetHour : Int) : Bool :=
  p.active && should_process (p.timeProp.getD 9) targetHour

structure DispatchOutcome where
  due : List RefPage
  dbRead : Bool
deriving DecidableEq

def process_channels_by_time (weekday : Int) (targetHour : Int) (pages : List RefPage) :
    DispatchOutcome :=
  if weekday ≥ 5 then { due := [], dbRead := false }
  else { due := pages.filter (fun p => channel_should_process p targetHour), dbRead := true }

/-! ## Simulation entry point (`scheduler.simulate_scheduler_at_time`) -/

inductive SimTask where
  | reset
  | extract (channel keyword : String) (uploadTime scheduledHour : Int)
deriving DecidableEq

def extraction_times (uploadTime : Int) : List Int :=
  if uploadTime < 12 then [9, 10, 11]
  else if uploadTime < 20 then [uploadTime + 2, uploadTime + 3, uploadTime + 4]
  else [22, 23, 0, 1, 2, 3]

structure SimOutcome where
  tasks : List SimTask
  dbRead : Bool
  resetExecuted : Bool
  processed : List RefPage
deriving DecidableEq

def simulate_scheduler_at_time (hour minute weekday : Int) (simulateOnly : Bool)
    (pages : List RefPage) : SimOutcome :=
  if weekday ≥ 5 then { tasks := [], dbRead := false, resetExecuted := false, processed := [] }
  else
    let resetTasks : List SimTask := if hour = 4 ∧ minute = 0 then [.reset] else []
    let duePages := pages.filter (fun p =>
      p.active && (extraction_times (p.timeProp.getD 9)).contains hour)
    { tasks := resetTasks ++ duePages.map (fun p =>
        SimTask.extract p.channelName p.keyword (p.timeProp.getD 9) hour),
      dbRead := true,
      resetExecuted := decide (hour = 4 ∧ minute = 0) && !simulateOnly,
      processed := if simulateOnly then [] else duePages }

/-! ## Claim C1 -/

/-- The dispatch-window predicate exactly as claim C1 states it. -/
def claimWindow (h t : Int) : Prop :=
  (h < 12 ∧ (t = 9 ∨ t = 10 ∨ t = 11)) ∨
  (12 ≤ h ∧ h < 20 ∧ (t = h + 2 ∨ t = h + 3 ∨ t = h + 4)) ∨
  (20 ≤ h ∧ (t = 22 ∨ t = 23 ∨ t = 0 ∨ t = 1 ∨ t = 2 ∨ t = 3))

/-- C1: for every integer expected hour `h` and every target hour `t` in 0–23,
the dispatcher's due check `should_process h t` holds iff `h < 12` and
`t ∈ {9,10,11}`, or `12 ≤ h < 20` and `t ∈ {h+2,h+3,h+4}`, or `h ≥ 20` and
`t ∈ {22,23,0,1,2,3}`. -/
theorem C1_dispatch_window (h t : Int) (ht0 : 0 ≤ t) (ht23 : t ≤ 23) :
    should_process h t = true ↔ claimWindow h t := by
  unfold should_process claimWindow
  by_cases h12 : h < 12
  · simp only [if_pos h12, List.contains, List.elem_eq_mem, List.mem_cons,
      List.not_mem_nil, or_false, decide_eq_true_eq]
    omega
  · by_cases h20 : h < 20
    · simp only [if_neg h12, if_pos h20, List.contains, List.elem_eq_mem, List.mem_cons,
        List.not_mem_nil, or_false, decide_eq_true_eq]
      omega
    · simp only [if_neg h12, if_neg h20, List.contains, List.elem_eq_mem, List.mem_cons,
        List.not_mem_nil, or_false, decide_eq_true_eq]
      omega

/-- Witness for C1 at `h = 14`, `t = 16`. -/
theorem C1_dispatch_window_witness :
    (0 : Int) ≤ 16 ∧ (16 : Int) ≤ 23 ∧ (should_process 14 16 = true ↔ claimWindow 14 16) :=
  ⟨by norm_num, by norm_num, C1_dispatch_window 14 16 (by norm_num) (by norm_num)⟩

/-! ## Claim C8 -/

/-- C8: invoked on weekday 5 or 6, the dispatcher returns the empty due set
without querying the reference database, for every target hour and every
non-empty page list; and the simulation entry point returns an empty task
list without querying the database, executing the reset, or processing any
channel. -/
theorem C8_weekend_suppression (weekday : Int) (hw : weekday = 5 ∨ weekday = 6) :
    (∀ (targetHour : Int) (pages : List RefPage), pages ≠ [] →
      process_channels_by_time weekday targetHour pages = { due := [], dbRead := false }) ∧
    (∀ (hour minute : Int) (simulateOnly : Bool) (pages : List RefPage),
      simulate_scheduler_at_time hour minute weekday simulateOnly pages =
        { tasks := [], dbRead := false, resetExecuted := false, processed := [] }) := by
  have h5 : weekday ≥ 5 := by rcases hw with h | h <;> omega
  refine ⟨fun targetHour pages _ => ?_, fun hour minute so pages => ?_⟩
  · simp [process_channels_by_time, h5]
  · simp [simulate_scheduler_at_time, h5]

def weekendPage : RefPage := { active := true, timeProp := some 14, channelName := "c", keyword := "k" }

/-- Witness for C8 at weekday 5, hour 10, a one-page store. -/
theorem C8_weekend_suppression_witness :
    process_channels_by_time 5 10 [weekendPage] = { due := [], dbRead := false } ∧
    simulate_scheduler_at_time 10 0 5 true [weekendPage] =
      { tasks := [], dbRead := false, resetExecuted := false, processed := [] } :=
  ⟨(C8_weekend_suppression 5 (Or.inl rfl)).1 10 [weekendPage] (by simp),
   (C8_weekend_suppression 5 (Or.inl rfl)).2 10 0 true [weekendPage]⟩

/-! ## Claim C10 -/

/-- C10: a page whose expected-hour property is missing or null gets the
default 9, so it is due exactly at target hours 9, 10 and 11; the simulation
entry point applies the same default and schedules an extraction task for it
exactly at hours 9, 10 and 11 (stated away from the 04:00 reset minute so the
task list is the extraction task alone). -/
theorem C10_default_hour (p : RefPage) (ht : p.timeProp = none) (ha : p.active = true) :
    (∀ t : Int, channel_should_process p t = true ↔ (t = 9 ∨ t = 10 ∨ t = 11)) ∧
    extraction_times (p.timeProp.getD 9) = [9, 10, 11] ∧
    (∀ (hour minute weekday : Int) (simulateOnly : Bool), weekday < 5 →
      ¬(hour = 4 ∧ minute = 0) →
      (simulate_scheduler_at_time hour minute weekday simulateOnly [p]).tasks =
        if hour = 9 ∨ hour = 10 ∨ hour = 11 then
          [SimTask.extract p.channelName p.keyword 9 hour] else []) := by
  refine ⟨fun t => ?_, by rw [ht]; rfl, fun hour minute weekday so hwd h4 => ?_⟩
  · simp [channel_should_process, ht, ha, should_process]
  · have hns : ¬ weekday ≥ 5 := by omega
    by_cases hc : hour = 9 ∨ hour = 10 ∨ hour = 11
    · rw [if_pos hc]
      rcases hc with h | h | h <;> subst h <;>
        simp [simulate_scheduler_at_time, hns, h4, ht, ha, extraction_times]
    · rw [if_neg hc]
      have h9 : hour ≠ 9 := by tauto
      have h10 : hour ≠ 10 := by tauto
      have h11 : hour ≠ 11 := by tauto
      simp [simulate_scheduler_at_time, hns, h4, ht, ha, extraction_times, h9, h10, h11]

def defaultHourPage : RefPage := { active := true, timeProp := none, channelName := "c", keyword := "k" }

/-- Witness for C10 at hour 10 on a Wednesday. -/
theorem C10_default_hour_witness :
    (channel_should_process defaultHourPage 10 = true ↔
      ((10 : Int) = 9 ∨ (10 : Int) = 10 ∨ (10 : Int) = 11)) ∧
    (simulate_scheduler_at_time 10 30 2 true [defaultHourPage]).tasks =
      (if (10 : Int) = 9 ∨ (10 : Int) = 10 ∨ (10 : Int) = 11 then
        [SimTask.extract "c" "k" 9 10] else []) :=
  ⟨(C10_default_hour defaultHourPage rfl rfl).1 10,
   (C10_default_hour defaultHourPage rfl rfl).2.2 10 30 2 true (by norm_num) (by norm_num)⟩

/-! ## Claim C2 -/

/-- C2: when the page passes the active/keyword/URL guards, the fetch
pipeline returns a completed (non-live, non-upcoming) candidate, and the
record store already holds a Processed Record for the candidate's URL, then
`process_channel` sets the source inactive, creates no record, fetches no
transcript, and reports success. -/
theorem C2_dedup_deactivates (env : ChannelEnv) (page : ChannelPage) (v : Video)
    (ha : page.active = true) (hu : page.channelUrl ≠ "") (hk : page.keyword ≠ "")
    (hyt : strHasSub page.channelUrl "youtube.com/@" = true)
    (hf : env.fetchResult = some v)
    (hl : v.is_live = false) (hup : v.is_upcoming = false)
    (hex : env.scriptExists v.url = true) :
    process_channel env page =
      { success := true, deactivateCalled := true, createCalled := false,
        transcriptCalled := false } := by
  unfold process_channel
  rw [hf]
  simp [ha, hu, hk, hyt, hl, hup, hex]

def c2Video : Video :=
  { title := "k show", url := "https://www.youtube.com/watch?v=abc", video_id := "abc",
    upload_date := "3일 전", is_upcoming := false, is_live := false, video_length := "10:00" }

def c2Env : ChannelEnv :=
  { fetchResult := some c2Video, scriptExists := fun _ => true,
    transcript := fun _ => "", createOk := false }

def c2Page : ChannelPage :=
  { active := true, keyword := "k", channelUrl := "https://www.youtube.com/@chan",
    channelName := "c" }

/-- Witness for C2 on a concrete page, candidate and store. -/
theorem C2_dedup_deactivates_witness :
    process_channel c2Env c2Page =
      { success := true, deactivateCalled := true, createCalled := false,
        transcriptCalled := false } :=
  C2_dedup_deactivates c2Env c2Page c2Video rfl (by decide) (by decide) (by decide)
    rfl rfl rfl rfl

/-! ## Concrete payload fixtures -/

/-- A `videoRenderer` body with the given title runs text, video id, and
extra fields. -/
def vrJson (title vid : String) (extra : List (String × Json)) : Json :=
  Json.obj (("title", Json.obj [("runs", Json.arr [Json.obj [("text", Json.str title)]])]) ::
    ("videoId", Json.str vid) :: extra)

/-- A section-list content item holding a `videoRenderer`. -/
def mkVideoItem (title vid : String) (extra : List (String × Json)) : Json :=
  Json.obj [("videoRenderer", vrJson title vid extra)]

/-- An overlay list marking a candidate with the given time-status style. -/
def overlaysWith (styles : List String) : List (String × Json) :=
  [("thumbnailOverlays", Json.arr (styles.map (fun st =>
    Json.obj [("thumbnailOverlayTimeStatusRenderer", Json.obj [("style", Json.str st)])])))]

/-- A payload presenting the given content items under the two-column
tab layout (one tab, one section list, one item section). -/
def tabsData (items : List Json) : Json :=
  Json.obj [("contents", Json.obj [("twoColumnBrowseResultsRenderer", Json.obj [("tabs",
    Json.arr [Json.obj [("tabRenderer", Json.obj [("content", Json.obj [("sectionListRenderer",
      Json.obj [("contents", Json.arr [Json.obj [("itemSectionRenderer", Json.obj [("contents",
        Json.arr items)])]])])])])]])])])]

/-! ## Claim C4 -/

theorem head?_filter {α : Type} (p : α → Bool) (l : List α) :
    (l.filter p).head? = l.find? p := by
  induction l with
  | nil => rfl
  | cons a as ih =>
    by_cases h : p a
    · simp [List.filter_cons, h]
    · simp [List.filter_cons, h, ih]

/-- C4: an attempt whose extraction yields a non-empty candidate list makes
the pipeline return the first candidate (in the finder's order) whose
`is_live` and `is_upcoming` flags are both false — none if no candidate
survives the filter — with no sleep; any candidate so returned has both
flags false. -/
theorem C4_first_completed (kw : String) (mr : Nat) (env : Nat → FetchAttempt)
    (i fuel : Nat) (d : Json) (henv : env i = .response (some d))
    (hne : find_videos_with_keyword d kw ≠ []) :
    pipelineGo kw mr env (fuel + 1) i =
      ((find_videos_with_keyword d kw).find? (fun v => !v.is_live && !v.is_upcoming), []) ∧
    (∀ v, (find_videos_with_keyword d kw).find? (fun v => !v.is_live && !v.is_upcoming) = some v →
      v.is_live = false ∧ v.is_upcoming = false) := by
  constructor
  · have hgo : pipelineGo kw mr env (fuel + 1) i =
        (((find_videos_with_keyword d kw).filter
          (fun v => !v.is_live && !v.is_upcoming)).head?, []) := by
      simp only [pipelineGo, henv]
      have he : (find_videos_with_keyword d kw).isEmpty = false := by
        rcases h : (find_videos_with_keyword d kw).isEmpty with _ | _
        · rfl
        · exact absurd (List.isEmpty_iff.mp h) hne
      rw [if_neg (by simp [he])]
      by_cases hn : ((find_videos_with_keyword d kw).filter
          (fun v => !v.is_live && !v.is_upcoming)).isEmpty
      · rw [if_pos hn, List.isEmpty_iff.mp hn]
        simp
      · rw [if_neg hn]
    rw [hgo, head?_filter]
  · intro v hv
    have := List.find?_some hv
    simp only [Bool.and_eq_true, Bool.not_eq_true'] at this
    exact this

def c4Data : Json :=
  tabsData [mkVideoItem "k live" "lv" (overlaysWith ["LIVE"]), mkVideoItem "k1" "v1" []]

def c4Env : Nat → FetchAttempt := fun _ => .response (some c4Data)

/-- Witness for C4 on a concrete payload holding one live and one completed
candidate. -/
theorem C4_first_completed_witness :
    pipelineGo "k" 1 c4Env 1 0 =
      ((find_videos_with_keyword c4Data "k").find? (fun v => !v.is_live && !v.is_upcoming), []) :=
  (C4_first_completed "k" 1 c4Env 0 0 c4Data rfl (by decide)).1

/-! ## Claim C5 -/

/-- The attempt outcomes claim C5 names as retryable: a timeout, an HTTP
error, or an empty extraction result. -/
def retryableFail (a : FetchAttempt) : Prop :=
  a = .timeout ∨ a = .httpError ∨ a = .response none

def c5Env : Nat → FetchAttempt := fun i =>
  if i = 0 then .timeout
  else if i = 1 then .timeout
  else .response (some (tabsData [mkVideoItem "k1" "v1" []]))

/-- C5: a retryable failure on attempt `i < max_retries - 1` sleeps exactly
`2^i` seconds and retries; a retryable failure on the last attempt returns
none immediately with no sleep; a successful extraction with zero matching
candidates returns none with no further attempt and no sleep; and with
`max_retries = 3` and a transport failing twice then succeeding, the
pipeline returns the successful candidate after sleeping 1s then 2s. -/
theorem C5_backoff_and_retry :
    (∀ (kw : String) (mr : Nat) (env : Nat → FetchAttempt) (i fuel : Nat),
      i < mr - 1 → retryableFail (env i) →
      pipelineGo kw mr env (fuel + 1) i =
        ((pipelineGo kw mr env fuel (i + 1)).1,
          2 ^ i :: (pipelineGo kw mr env fuel (i + 1)).2)) ∧
    (∀ (kw : String) (mr : Nat) (env : Nat → FetchAttempt) (i fuel : Nat),
      ¬ i < mr - 1 → retryableFail (env i) →
      pipelineGo kw mr env (fuel + 1) i = (none, [])) ∧
    (∀ (kw : String) (mr : Nat) (env : Nat → FetchAttempt) (i fuel : Nat) (d : Json),
      env i = .response (some d) → find_videos_with_keyword d kw = [] →
      pipelineGo kw mr env (fuel + 1) i = (none, [])) ∧
    process_channel_url "k" 3 c5Env =
      (some { title := "k1", url := "https://www.youtube.com/watch?v=v1", video_id := "v1",
              upload_date := "", is_upcoming := false, is_live := false,
              video_length := "Unknown" }, [1, 2]) := by
  refine ⟨?_, ?_, ?_, by decide⟩
  · rintro kw mr env i fuel hlt (h | h | h) <;> simp [pipelineGo, h, hlt]
  · rintro kw mr env i fuel hlt (h | h | h) <;> simp [pipelineGo, h, hlt]
  · intro kw mr env i fuel d henv hempty
    simp [pipelineGo, henv, hempty]

/-- Witness for C5: the first and second parts at the concrete failing
transport, reproducing the 1s sleep of attempt 0. -/
theorem C5_backoff_and_retry_witness :
    pipelineGo "k" 3 c5Env 3 0 =
      ((pipelineGo "k" 3 c5Env 2 1).1, 2 ^ 0 :: (pipelineGo "k" 3 c5Env 2 1).2) :=
  C5_backoff_and_retry.1 "k" 3 c5Env 0 2 (by norm_num) (Or.inl rfl)

/-! ## Claim C9 -/

theorem transcriptGo_allFail (mr : Nat) (env : Nat → TAttempt) (err1 err2 : Nat → String)
    (henv : ∀ j, j < mr → env j = .bothFail (err1 j) (err2 j)) :
    ∀ fuel i, fuel = mr - i → i < mr →
      transcriptGo mr env fuel i =
        ("스크립트를 가져올 수 없습니다: " ++ err2 (mr - 1),
         (List.range' i (mr - 1 - i)).map (2 ^ ·),
         (List.range' i (mr - i)).flatMap (fun j => [TCall.ko j, TCall.auto j])) := by
  intro fuel
  induction fuel with
  | zero => intro i hfe hlt; omega
  | succ fuel ih =>
    intro i hfe hlt
    simp only [transcriptGo, henv i hlt]
    by_cases hmid : i < mr - 1
    · rw [if_pos hmid, ih (i + 1) (by omega) (by omega)]
      have h1 : mr - 1 - i = (mr - 1 - (i + 1)) + 1 := by omega
      have h2 : mr - i = (mr - (i + 1)) + 1 := by omega
      rw [h1, h2, List.range'_succ, List.range'_succ]
      simp
    · rw [if_neg hmid]
      have hi : i = mr - 1 := by omega
      have h1 : mr - 1 - i = 0 := by omega
      have h2 : mr - i = 1 := by omega
      rw [h1, h2, hi]
      simp [List.range']

/-- C9: the transcript retriever tries the Korean fetch first on every
attempt and the auto-detected fetch only on its failure; when both fail on
attempt `i < max_retries - 1` it sleeps `2^i` seconds and retries the pair;
and when every attempt fails it returns the sentinel string beginning with
the unavailable marker and carrying the last error, having slept
`2^0, ..., 2^(max_retries-2)` and called the pair on every attempt.  (The
embedding is total, mirroring the source's promise never to raise.) -/
theorem C9_transcript_retriever (mr : Nat) (env : Nat → TAttempt) :
    (∀ i fuel texts, env i = .koOk texts →
      transcriptGo mr env (fuel + 1) i = (joinTexts texts, [], [.ko i])) ∧
    (∀ i fuel err texts, env i = .koFailAutoOk err texts →
      transcriptGo mr env (fuel + 1) i = (joinTexts texts, [], [.ko i, .auto i])) ∧
    (∀ i fuel e1 e2, env i = .bothFail e1 e2 → i < mr - 1 →
      transcriptGo mr env (fuel + 1) i =
        ((transcriptGo mr env fuel (i + 1)).1,
         2 ^ i :: (transcriptGo mr env fuel (i + 1)).2.1,
         .ko i :: .auto i :: (transcriptGo mr env fuel (i + 1)).2.2)) ∧
    (∀ err1 err2 : Nat → String, 0 < mr →
      (∀ j, j < mr → env j = .bothFail (err1 j) (err2 j)) →
      get_video_transcript mr env =
        ("스크립트를 가져올 수 없습니다: " ++ err2 (mr - 1),
         (List.range (mr - 1)).map (2 ^ ·),
         (List.range mr).flatMap (fun j => [TCall.ko j, TCall.auto j]))) := by
  refine ⟨?_, ?_, ?_, ?_⟩
  · intro i fuel texts h; simp [transcriptGo, h]
  · intro i fuel err texts h; simp [transcriptGo, h]
  · intro i fuel e1 e2 h hlt; simp [transcriptGo, h, hlt]
  · intro err1 err2 hmr henv
    have := transcriptGo_allFail mr env err1 err2 henv mr 0 (by omega) hmr
    rw [get_video_transcript, this, List.range_eq_range' (mr - 1), List.range_eq_range' mr]
    simp only [Nat.sub_zero]

def c9Env : Nat → TAttempt := fun i =>
  if i = 0 then .bothFail "e1" "e2" else .koFailAutoOk "e3" ["hello", "world"]

/-- Witness for C9: the Korean-fails/auto-succeeds attempt and the
both-fail back-off step at the concrete provider. -/
theorem C9_transcript_retriever_witness :
    transcriptGo 3 c9Env 2 1 = (joinTexts ["hello", "world"], [], [.ko 1, .auto 1]) ∧
    transcriptGo 3 c9Env 3 0 =
      ((transcriptGo 3 c9Env 2 1).1, 2 ^ 0 :: (transcriptGo 3 c9Env 2 1).2.1,
        .ko 0 :: .auto 0 :: (transcriptGo 3 c9Env 2 1).2.2) :=
  ⟨(C9_transcript_retriever 3 c9Env).2.1 1 1 "e3" ["hello", "world"] rfl,
   (C9_transcript_retriever 3 c9Env).2.2.1 0 2 "e1" "e2" rfl (by norm_num)⟩

/-! ## Claim C6 -/

/-- C6: the relative-time parser (total in this embedding, mirroring the
source's promise that no exception escapes) maps "3일 전" and "3 days ago"
to now minus 3 days; maps a phrase of N months — none of the
earlier-priority units present — to now minus N·30 days and a phrase of N
years to now minus N·365 days; and returns "now" for the empty phrase, for
a phrase containing no integer, for a phrase matching no unit and no date
pattern, and for a Korean date-pattern match whose constructed date would
raise `ValueError`. -/
theorem C6_relative_time_rules :
    parse_upload_date "3일 전" = .nowMinus (1440 * 3) ∧
    parse_upload_date "3 days ago" = .nowMinus (1440 * 3) ∧
    (∀ s n, firstNat s = some n →
      (strHasSub s "개월 전" = true ∨ strHasSub s "months ago" = true) →
      strHasSub s "분 전" = false → strHasSub s "minutes ago" = false →
      strHasSub s "시간 전" = false → strHasSub s "hours ago" = false →
      strHasSub s "일 전" = false → strHasSub s "days ago" = false →
      strHasSub s "주 전" = false → strHasSub s "weeks ago" = false →
      parse_upload_date s = .nowMinus (1440 * (30 * n))) ∧
    (∀ s n, firstNat s = some n →
      (strHasSub s "년 전" = true ∨ strHasSub s "years ago" = true) →
      strHasSub s "분 전" = false → strHasSub s "minutes ago" = false →
      strHasSub s "시간 전" = false → strHasSub s "hours ago" = false →
      strHasSub s "일 전" = false → strHasSub s "days ago" = false →
      strHasSub s "주 전" = false → strHasSub s "weeks ago" = false →
      strHasSub s "개월 전" = false → strHasSub s "months ago" = false →
      parse_upload_date s = .nowMinus (1440 * (365 * n))) ∧
    parse_upload_date "" = .nowMinus 0 ∧
    (∀ s, firstNat s = none → parse_upload_date s = .nowMinus 0) ∧
    (∀ s n, firstNat s = some n →
      strHasSub s "분 전" = false → strHasSub s "minutes ago" = false →
      strHasSub s "시간 전" = false → strHasSub s "hours ago" = false →
      strHasSub s "일 전" = false → strHasSub s "days ago" = false →
      strHasSub s "주 전" = false → strHasSub s "weeks ago" = false →
      strHasSub s "개월 전" = false → strHasSub s "months ago" = false →
      strHasSub s "년 전" = false → strHasSub s "years ago" = false →
      searchKDate s.data = none → searchEngDate s.data = none →
      parse_upload_date s = .nowMinus 0) ∧
    (∀ s n y m d, firstNat s = some n →
      strHasSub s "분 전" = false → strHasSub s "minutes ago" = false →
      strHasSub s "시간 전" = false → strHasSub s "hours ago" = false →
      strHasSub s "일 전" = false → strHasSub s "days ago" = false →
      strHasSub s "주 전" = false → strHasSub s "weeks ago" = false →
      strHasSub s "개월 전" = false → strHasSub s "months ago" = false →
      strHasSub s "년 전" = false → strHasSub s "years ago" = false →
      searchKDate s.data = some (y, m, d) → validYMD y m d = false →
      parse_upload_date s = .nowMinus 0) := by
  refine ⟨by decide, by decide, ?_, ?_, by decide, ?_, ?_, ?_⟩
  · intro s n hfn hunit h1 h2 h3 h4 h5 h6 h7 h8
    have hne : ¬ s = "" := by
      intro he
      have h0 : firstNat "" = none := rfl
      rw [he, h0] at hfn
      cases hfn
    rcases hunit with h | h <;>
      simp [parse_upload_date, hne, hfn, h1, h2, h3, h4, h5, h6, h7, h8, h]
  · intro s n hfn hunit h1 h2 h3 h4 h5 h6 h7 h8 h9 h10
    have hne : ¬ s = "" := by
      intro he
      have h0 : firstNat "" = none := rfl
      rw [he, h0] at hfn
      cases hfn
    rcases hunit with h | h <;>
      simp [parse_upload_date, hne, hfn, h1, h2, h3, h4, h5, h6, h7, h8, h9, h10, h]
  · intro s hfn
    by_cases hne : s = ""
    · rw [hne]; decide
    · simp [parse_upload_date, hne, hfn]
  · intro s n hfn h1 h2 h3 h4 h5 h6 h7 h8 h9 h10 h11 h12 hk he
    have hne : ¬ s = "" := by
      intro hemp
      have h0 : firstNat "" = none := rfl
      rw [hemp, h0] at hfn
      cases hfn
    simp [parse_upload_date, hne, hfn, h1, h2, h3, h4, h5, h6, h7, h8, h9, h10, h11, h12, hk, he]
  · intro s n y m d hfn h1 h2 h3 h4 h5 h6 h7 h8 h9 h10 h11 h12 hk hval
    have hne : ¬ s = "" := by
      intro hemp
      have h0 : firstNat "" = none := rfl
      rw [hemp, h0] at hfn
      cases hfn
    simp [parse_upload_date, hne, hfn, h1, h2, h3, h4, h5, h6, h7, h8, h9, h10, h11, h12, hk, hval]

/-- Witness for C6: the month rule at "3개월 전", the no-integer fallback
at "어제", and the no-unit/no-pattern fallback at "3 bananas". -/
theorem C6_relative_time_rules_witness :
    parse_upload_date "3개월 전" = .nowMinus (1440 * (30 * 3)) ∧
    parse_upload_date "어제" = .nowMinus 0 ∧
    parse_upload_date "3 bananas" = .nowMinus 0 :=
  ⟨C6_relative_time_rules.2.2.1 "3개월 전" 3 (by decide) (Or.inl (by decide)) (by decide)
      (by decide) (by decide) (by decide) (by decide) (by decide) (by decide) (by decide),
   C6_relative_time_rules.2.2.2.2.2.1 "어제" (by decide),
   C6_relative_time_rules.2.2.2.2.2.2.1 "3 bananas" 3 (by decide) (by decide) (by decide)
      (by decide) (by decide) (by decide) (by decide) (by decide) (by decide) (by decide)
      (by decide) (by decide) (by decide) (by decide) (by decide)⟩

/-! ## Claim C3 -/

theorem insertStable_front {α : Type} (le : α → α → Bool) (x : α) (l : List α)
    (h : ∀ y ∈ l, le x y = true) : insertStable le x l = x :: l := by
  cases l with
  | nil => rfl
  | cons y ys => simp [insertStable, h y (List.mem_cons_self y ys)]

theorem insertStable_skip {α : Type} (le : α → α → Bool) (x : α) (A R : List α)
    (h : ∀ a ∈ A, le x a = false) : insertStable le x (A ++ R) = A ++ insertStable le x R := by
  induction A with
  | nil => rfl
  | cons a as ih =>
    have ha := h a (List.mem_cons_self a as)
    have ih' := ih (fun b hb => h b (List.mem_cons_of_mem a hb))
    simp [insertStable, ha, ih']

theorem sortKey_cases (v : Video) : sortKey v = -1 ∨ sortKey v = 0 ∨ sortKey v = 1 := by
  cases hl : v.is_live <;> cases hu : v.is_upcoming <;> simp [sortKey, hl, hu]

theorem mem_filter_key {c : Int} {l : List Video} {v : Video}
    (h : v ∈ l.filter (fun w => sortKey w == c)) : sortKey v = c := by
  have := (List.mem_filter.mp h).2
  simpa using this

theorem videoLE_iff (a b : Video) : videoLE a b = true ↔ sortKey a ≤ sortKey b := by
  simp [videoLE]

theorem videoLE_false_iff (a b : Video) : videoLE a b = false ↔ ¬ sortKey a ≤ sortKey b := by
  simp [videoLE]

/-- The stable sort splits into the three key tiers, each preserving the
input's relative order. -/
theorem sortVideos_decomp (l : List Video) :
    sortVideos l =
      l.filter (fun v => sortKey v == -1) ++ l.filter (fun v => sortKey v == 0) ++
      l.filter (fun v => sortKey v == 1) := by
  induction l with
  | nil => rfl
  | cons x xs ih =>
    rw [show sortVideos (x :: xs) = insertStable videoLE x (sortVideos xs) from rfl, ih]
    rcases sortKey_cases x with hx | hx | hx
    · rw [insertStable_front]
      · simp [List.filter_cons, hx]
      · intro y hy
        rw [videoLE_iff, hx]
        rcases sortKey_cases y with h | h | h <;> omega
    · rw [List.append_assoc, insertStable_skip, insertStable_front]
      · simp [List.filter_cons, hx, List.append_assoc]
      · intro y hy
        rw [videoLE_iff, hx]
        rcases List.mem_append.mp hy with h | h
        · rw [mem_filter_key h]
        · rw [mem_filter_key h]; omega
      · intro a hA
        rw [videoLE_false_iff, hx, mem_filter_key hA]
        omega
    · rw [insertStable_skip, insertStable_front]
      · simp [List.filter_cons, hx, List.append_assoc]
      · intro y hy
        rw [videoLE_iff, hx, mem_filter_key hy]
      · intro a hA
        rw [videoLE_false_iff, hx]
        rcases List.mem_append.mp hA with h | h
        · rw [mem_filter_key h]; omega
        · rw [mem_filter_key h]; omega

/-- The precedence property of claim C3, read literally: every live
candidate precedes every normal (non-live, non-upcoming) candidate, which
precedes every upcoming candidate. -/
def claimTierOrder (l : List Video) : Prop :=
  (∀ i j : Fin l.length, (l.get i).is_live = true →
    (l.get j).is_live = false ∧ (l.get j).is_upcoming = false → (i : Nat) < (j : Nat)) ∧
  (∀ i j : Fin l.length, (l.get i).is_live = false ∧ (l.get i).is_upcoming = false →
    (l.get j).is_upcoming = true → (i : Nat) < (j : Nat))

def c3Payload : Json :=
  tabsData [mkVideoItem "k1" "n1" [], mkVideoItem "k2" "b1" (overlaysWith ["UPCOMING", "LIVE"])]

/-- Counterexample to C3 as stated: on this payload the finder produces a
candidate carrying both flags (two overlays, UPCOMING then LIVE).  The sort
key places it in the live tier, ahead of a normal candidate discovered
earlier, so the claim's clause "every normal candidate precedes every
candidate with is_upcoming = true" fails — the claim's tiers are not
disjoint on the finder's actual outputs. -/
theorem C3_counterexample : ¬ claimTierOrder (find_videos_with_keyword c3Payload "k") := by
  have h : find_videos_with_keyword c3Payload "k" =
      [{ title := "k2", url := "https://www.youtube.com/watch?v=b1", video_id := "b1",
         upload_date := "", is_upcoming := true, is_live := true, video_length := "Unknown" },
       { title := "k1", url := "https://www.youtube.com/watch?v=n1", video_id := "n1",
         upload_date := "", is_upcoming := false, is_live := false,
         video_length := "Unknown" }] := by decide
  rw [h]
  unfold claimTierOrder
  decide

def liveV : Video :=
  { title := "L", url := "uL", video_id := "l", upload_date := "", is_upcoming := false,
    is_live := true, video_length := "Unknown" }

def normalV : Video :=
  { title := "N", url := "uN", video_id := "n", upload_date := "", is_upcoming := false,
    is_live := false, video_length := "Unknown" }

def upcomingV : Video :=
  { title := "U", url := "uU", video_id := "u", upload_date := "", is_upcoming := true,
    is_live := false, video_length := "Unknown" }

/-- C3 amended: the finder's final sort is stable and three-tiered with the
tiers given by the source's sort key — live candidates (key -1, live taking
precedence when a candidate carries both flags) first, then completed
candidates (key 0), then upcoming candidates (key 1) — and within each tier
the discovery order is preserved (the sorted list is exactly the
concatenation of the three key-filtered sublists in input order); in
particular one live, one normal, one upcoming candidate sort to
[live, normal, upcoming]. -/
theorem C3_amended_stable_tiers :
    (∀ l : List Video,
      sortVideos l =
        l.filter (fun v => sortKey v == -1) ++ l.filter (fun v => sortKey v == 0) ++
        l.filter (fun v => sortKey v == 1)) ∧
    sortVideos [liveV, normalV, upcomingV] = [liveV, normalV, upcomingV] :=
  ⟨sortVideos_decomp, by decide⟩

/-! ## Claim C7 -/

/-- Modelled from the spec's claim C7 (not from the source): the candidates
the flat section-list shape contributes when that shape is "attempted
independently", as the claim demands — the section list's sections walked
exactly as the tab walker would walk them. -/
def flatShapeMatches (data : Json) (keyword : String) : List Video :=
  match data.getKey "contents" with
  | some contents =>
    match contents.getKey "sectionListRenderer" with
    | some slr => (((slr.getKey "contents").getD (.arr [])).elems).flatMap (processSection keyword)
    | none => []
  | none => []

def c7FlatPayload : Json :=
  Json.obj [("contents", Json.obj [("sectionListRenderer", Json.obj [("contents",
    Json.arr [Json.obj [("itemSectionRenderer", Json.obj [("contents",
      Json.arr [mkVideoItem "k flat" "f1" []])])]])])])]

/-- Counterexample to C7 as stated: a payload presenting matching content
only under the flat section-list shape.  Attempting that shape independently
yields one match, so the claimed union over all shapes present is that
single candidate — yet the finder returns the empty list, because its
flat-shape branch wraps the section list one level short of where the
per-tab walker looks for the `sectionListRenderer` key. -/
theorem C7_counterexample :
    flatShapeMatches c7FlatPayload "k" =
      [{ title := "k flat", url := "https://www.youtube.com/watch?v=f1", video_id := "f1",
         upload_date := "", is_upcoming := false, is_live := false,
         video_length := "Unknown" }] ∧
    find_videos_with_keyword c7FlatPayload "k" = [] ∧
    find_videos_with_keyword c7FlatPayload "k" ≠ flatShapeMatches c7FlatPayload "k" :=
  ⟨by decide, by decide, by decide⟩

def c7TwoColGridPayload : Json :=
  tabsData [Json.obj [("gridRenderer", Json.obj [("items",
    Json.arr [Json.obj [("gridVideoRenderer", vrJson "k grid" "g1" [])]])])]]

def c7GridVideo : Video :=
  { title := "k grid", url := "https://www.youtube.com/watch?v=g1", video_id := "g1",
    upload_date := "", is_upcoming := false, is_live := false, video_length := "Unknown" }

def c7RichPayload : Json :=
  Json.obj [("contents", Json.obj [("twoColumnBrowseResultsRenderer", Json.obj [("tabs",
    Json.arr [Json.obj [("tabRenderer", Json.obj [("content", Json.obj [("richGridRenderer",
      Json.obj [("contents", Json.arr [Json.obj [("richItemRenderer", Json.obj [("content",
        Json.obj [("videoRenderer", vrJson "k rich" "r1" [])])])]])])])])]])])])]

def c7RichVideo : Video :=
  { title := "k rich", url := "https://www.youtube.com/watch?v=r1", video_id := "r1",
    upload_date := "", is_upcoming := false, is_live := false, video_length := "Unknown" }

/-- C7 amended: the finder recognizes the three shapes by priority
branching rather than merging — (1) a top-level two-column layout preempts
any coexisting flat section list (the result depends only on the two-column
entry); (2) within a tab, section-list content preempts rich-grid content;
(3) the flat section-list branch wraps the payload one level short, so a
payload presenting only that shape (with no nested shape key inside the
section list itself) yields no candidates; while (4) the two-column grid
and (5) the rich-grid shapes do yield their matches. -/
theorem C7_amended_priority_branching :
    (∀ (t : Json) (rest : List (String × Json)) (kw : String),
      find_videos_with_keyword
        (.obj [("contents", .obj (("twoColumnBrowseResultsRenderer", t) :: rest))]) kw =
      find_videos_with_keyword
        (.obj [("contents", .obj [("twoColumnBrowseResultsRenderer", t)])]) kw) ∧
    (∀ (trc : List (String × Json)) (slr : Json) (kw : String),
      lookupField trc "sectionListRenderer" = some slr →
      processTab kw (.obj [("tabRenderer", .obj [("content", .obj trc)])]) =
        (((slr.getKey "contents").getD (.arr [])).elems).flatMap (processSection kw)) ∧
    (∀ (slrFields : List (String × Json)) (kw : String),
      lookupField slrFields "sectionListRenderer" = none →
      lookupField slrFields "richGridRenderer" = none →
      find_videos_with_keyword
        (.obj [("contents", .obj [("sectionListRenderer", .obj slrFields)])]) kw = []) ∧
    find_videos_with_keyword c7TwoColGridPayload "k" = [c7GridVideo] ∧
    find_videos_with_keyword c7RichPayload "k" = [c7RichVideo] := by
  refine ⟨?_, ?_, ?_, by decide, by decide⟩
  · intro t rest kw
    simp [find_videos_with_keyword, Json.getKey, lookupField]
  · intro trc slr kw h
    simp [processTab, Json.getKey, lookupField, h]
  · intro slrFields kw h1 h2
    by_cases hc : (lookupField slrFields "contents").isSome
    · simp [find_videos_with_keyword, Json.getKey, lookupField, processTab, h1, h2, hc,
        sortVideos, sortStable]
    · simp [find_videos_with_keyword, Json.getKey, lookupField, hc]

/-- Witness for the amended C7: the tab-level precedence at a tab carrying
both a section list and a rich grid, and the dead flat-shape branch at a
concrete empty section list. -/
theorem C7_amended_priority_branching_witness :
    processTab "k" (.obj [("tabRenderer", .obj [("content", .obj
      [("sectionListRenderer", Json.obj [("contents", Json.arr [])]),
       ("richGridRenderer", Json.obj [("contents", Json.arr [])])])])]) =
      ((((Json.obj [("contents", Json.arr [])]).getKey "contents").getD
        (.arr [])).elems).flatMap (processSection "k") ∧
    find_videos_with_keyword (.obj [("contents", .obj [("sectionListRenderer",
      .obj [("contents", Json.arr [])])])]) "k" = [] :=
  ⟨C7_amended_priority_branching.2.1
      [("sectionListRenderer", Json.obj [("contents", Json.arr [])]),
       ("richGridRenderer", Json.obj [("contents", Json.arr [])])]
      (Json.obj [("contents", Json.arr [])]) "k" rfl,
   C7_amended_priority_branching.2.2.1 [("contents", Json.arr [])] "k" rfl rfl⟩
